import Mathlib

/-
Verification of scripts/add_broadcast_extension_target.py (mieweb/pulse).

The script is embedded shallowly:
  - generate_uuid models uuid.uuid4().hex[:24].upper(), with the 128-bit
    random value made an explicit argument;
  - the body of add_broadcast_extension_target is modelled as a pure
    function of the operator response, the on-disk document text, and a
    stream of random values; it returns a structured outcome, an event
    trace (prompt, read, id generation, existence check, writes), and
    the final on-disk document text;
  - main is modelled by mainRun, parametrised over whether the project
    file exists at the expected path.
-/

/-- Lowercase hexadecimal digit character for a value below 16, as produced
by Python's hex formatting. -/
def hexDigit (n : Nat) : Char :=
  if n < 10 then Char.ofNat (48 + n) else Char.ofNat (87 + n)

/-- Fixed-width big-endian hexadecimal expansion of a natural number:
`toHexFixed w n` is the `w`-digit string of `n` modulo `16 ^ w`. -/
def toHexFixed : Nat → Nat → List Char
  | 0, _ => []
  | w + 1, n => toHexFixed w (n / 16) ++ [hexDigit (n % 16)]

/-- The 32 lowercase hex characters of `uuid.uuid4().hex`, with the
underlying 128-bit random value `r` made explicit. -/
def uuid4_hex (r : Nat) : List Char := toHexFixed 32 r

/-- The script's generate_uuid: `uuid.uuid4().hex[:24].upper()` — the first
24 characters of the 32-character hex form, uppercased.  It is a function of
the random value alone; the existing graph is not consulted. -/
def generate_uuid (r : Nat) : String :=
  String.mk (((uuid4_hex r).take 24).map Char.toUpper)

/-- Python's str.lower on the script's ASCII prompt answers, as a
structural map over the characters of the string. -/
def pyLower (s : String) : String := String.mk (s.data.map Char.toLower)

/-- Boolean test that the first list starts the second (character lists). -/
def beginsWith : List Char → List Char → Bool
  | [], _ => true
  | _ :: _, [] => false
  | a :: as, b :: bs => a == b && beginsWith as bs

/-- Python's substring containment `needle in haystack`, on character
lists: the needle occurs contiguously somewhere in the haystack. -/
def containsSub (needle : List Char) : List Char → Bool
  | [] => beginsWith needle []
  | c :: rest => beginsWith needle (c :: rest) || containsSub needle rest

/-- Observable events of one run of the script, in order. -/
inductive Event where
  | prompt
  | readDoc
  | genId (tok : String)
  | existsCheck (found : Bool)
  | writeDoc (content : String)
deriving DecidableEq

/-- True exactly on identifier-generation events. -/
def Event.isGen : Event → Bool
  | .genId _ => true
  | _ => false

/-- True exactly on write events. -/
def Event.isWrite : Event → Bool
  | .writeDoc _ => true
  | _ => false

/-- Structured outcome of add_broadcast_extension_target.  The Python
function returns False both on a declined confirmation and on the
already-exists path, and True on the path that prints the manual
instructions; the constructors keep the three exits distinct. -/
inductive AddResult where
  | aborted
  | alreadyExists
  | instructed
deriving DecidableEq

/-- The Python boolean actually returned for each outcome. -/
def AddResult.toBool : AddResult → Bool
  | .instructed => true
  | _ => false

/-- Result of one run: structured outcome, event trace, final disk text. -/
structure RunOut where
  result : AddResult
  trace : List Event
  disk : String
deriving DecidableEq

/-- read_pbxproj: read the whole document; the disk content is the model
of the file at project_path. -/
def read_pbxproj (disk : String) : String := disk

/-- write_pbxproj: overwrite the document with new content.  Defined in
the script but never called anywhere in it. -/
def write_pbxproj (_disk : String) (content : String) : String := content

/-- The hard-coded target name the script tests for. -/
def broadcastName : String := "BroadcastExtension"

/-- The script generates exactly 14 identifiers per confirmed run (target,
product, configuration list, two configurations, three phases, and the
sample-handler, Info.plist and entitlements build-file/reference pairs). -/
def uuidCount : Nat := 14

/-- The body of add_broadcast_extension_target:
prompt for confirmation; on anything whose lowercase form is not "yes",
abort.  Otherwise read the document, generate 14 identifiers, then test
whether the character sequence 'BroadcastExtension' occurs anywhere in the
text; if it does, report that the target already exists; otherwise print
the manual instructions.  No path writes the document. -/
def add_broadcast_extension_target (response : String) (disk : String)
    (rand : Nat → Nat) : RunOut :=
  if pyLower response ≠ "yes" then
    { result := .aborted, trace := [.prompt], disk := disk }
  else
    let content := read_pbxproj disk
    let ids := (List.range uuidCount).map fun i => generate_uuid (rand i)
    if containsSub broadcastName.data content.data then
      { result := .alreadyExists
        trace := [.prompt, .readDoc] ++ ids.map Event.genId ++ [.existsCheck true]
        disk := disk }
    else
      { result := .instructed
        trace := [.prompt, .readDoc] ++ ids.map Event.genId ++ [.existsCheck false]
        disk := disk }

/-- The script's main: exit 1 when the project file is missing at the
expected path; otherwise run add_broadcast_extension_target, ignore its
return value, and exit 0.  Returns (exit status, final disk text). -/
def mainRun (fileExists : Bool) (response disk : String)
    (rand : Nat → Nat) : Nat × String :=
  if !fileExists then
    (1, disk)
  else
    (0, (add_broadcast_extension_target response disk rand).disk)

/-- The identifier tokens of one confirmed run, in generation order. -/
def runIds (rand : Nat → Nat) : List String :=
  (List.range uuidCount).map fun i => generate_uuid (rand i)

lemma add_abort (response disk : String) (rand : Nat → Nat)
    (h : pyLower response ≠ "yes") :
    add_broadcast_extension_target response disk rand =
      { result := .aborted, trace := [.prompt], disk := disk } := by
  unfold add_broadcast_extension_target
  rw [if_pos h]

lemma add_found (response disk : String) (rand : Nat → Nat)
    (hy : pyLower response = "yes")
    (hf : containsSub broadcastName.data disk.data = true) :
    add_broadcast_extension_target response disk rand =
      { result := .alreadyExists
        trace := [.prompt, .readDoc] ++ (runIds rand).map Event.genId ++
          [.existsCheck true]
        disk := disk } := by
  unfold add_broadcast_extension_target
  rw [if_neg (by simp [hy])]
  simp only [read_pbxproj, hf, if_true, runIds]

lemma add_notfound (response disk : String) (rand : Nat → Nat)
    (hy : pyLower response = "yes")
    (hf : containsSub broadcastName.data disk.data = false) :
    add_broadcast_extension_target response disk rand =
      { result := .instructed
        trace := [.prompt, .readDoc] ++ (runIds rand).map Event.genId ++
          [.existsCheck false]
        disk := disk } := by
  unfold add_broadcast_extension_target
  rw [if_neg (by simp [hy])]
  simp only [read_pbxproj, hf, runIds]
  rw [if_neg (by simp)]

lemma disk_unchanged (response disk : String) (rand : Nat → Nat) :
    (add_broadcast_extension_target response disk rand).disk = disk := by
  by_cases hy : pyLower response = "yes"
  · cases hf : containsSub broadcastName.data disk.data
    · rw [add_notfound response disk rand hy hf]
    · rw [add_found response disk rand hy hf]
  · rw [add_abort response disk rand hy]

lemma trace_no_write (response disk : String) (rand : Nat → Nat) :
    ((add_broadcast_extension_target response disk rand).trace).filter
      Event.isWrite = [] := by
  by_cases hy : pyLower response = "yes"
  · cases hf : containsSub broadcastName.data disk.data
    · rw [add_notfound response disk rand hy hf]
      simp [List.filter_append, List.filter_map, Event.isWrite, Function.comp]
    · rw [add_found response disk rand hy hf]
      simp [List.filter_append, List.filter_map, Event.isWrite, Function.comp]
  · rw [add_abort response disk rand hy]
    simp [Event.isWrite]

lemma trace_starts_prompt (response disk : String) (rand : Nat → Nat) :
    ((add_broadcast_extension_target response disk rand).trace).head? =
      some Event.prompt := by
  by_cases hy : pyLower response = "yes"
  · cases hf : containsSub broadcastName.data disk.data
    · rw [add_notfound response disk rand hy hf]; rfl
    · rw [add_found response disk rand hy hf]; rfl
  · rw [add_abort response disk rand hy]; rfl

lemma string_mk_length (l : List Char) : (String.mk l).length = l.length := rfl

lemma string_mk_data (l : List Char) : (String.mk l).data = l := rfl

lemma toHexFixed_length (w : Nat) : ∀ n, (toHexFixed w n).length = w := by
  induction w with
  | zero => intro n; rfl
  | succ w ih => intro n; simp [toHexFixed, ih]

lemma toHexFixed_mem (w : Nat) :
    ∀ n c, c ∈ toHexFixed w n → ∃ m, m < 16 ∧ c = hexDigit m := by
  induction w with
  | zero => intro n c hc; simp [toHexFixed] at hc
  | succ w ih =>
    intro n c hc
    simp only [toHexFixed, List.mem_append, List.mem_singleton] at hc
    rcases hc with hc | hc
    · exact ih (n / 16) c hc
    · exact ⟨n % 16, Nat.mod_lt _ (by decide), hc⟩

lemma hexDigit_upper_mem :
    ∀ m, m < 16 → Char.toUpper (hexDigit m) ∈ "0123456789ABCDEF".data := by
  decide


/-- C8: every identifier produced by generate_uuid is a fixed-length token
over a fixed alphabet — exactly 24 characters drawn from the uppercase
hexadecimal alphabet 0-9, A-F — for every underlying random value. -/
theorem uuid_format (r : Nat) :
    (generate_uuid r).length = 24 ∧
    ∀ c ∈ (generate_uuid r).data, c ∈ "0123456789ABCDEF".data := by
  constructor
  · rw [generate_uuid, string_mk_length, List.length_map, List.length_take,
      uuid4_hex, toHexFixed_length 32 r]
    decide
  · intro c hc
    rw [generate_uuid, string_mk_data, uuid4_hex] at hc
    rcases List.mem_map.mp hc with ⟨d, hd, rfl⟩
    rcases toHexFixed_mem 32 r d (List.mem_of_mem_take hd) with ⟨m, hm, rfl⟩
    exact hexDigit_upper_mem m hm

/-- Witness for uuid_format at the random value 0 and the character 0. -/
theorem uuid_format_witness :
    (generate_uuid 0).length = 24 ∧ ('0' : Char) ∈ "0123456789ABCDEF".data :=
  ⟨(uuid_format 0).1, (uuid_format 0).2 '0' (by decide)⟩

/-- C9: on every control path the program never writes: the final on-disk
document equals the initial one, the run trace contains no write event
(write_pbxproj is never invoked), and the modelled main also leaves the
disk unchanged whether or not the project file exists. -/
theorem never_writes (response disk : String) (rand : Nat → Nat) :
    (add_broadcast_extension_target response disk rand).disk = disk ∧
    ((add_broadcast_extension_target response disk rand).trace).filter
      Event.isWrite = [] ∧
    ∀ fe : Bool, (mainRun fe response disk rand).2 = disk := by
  refine ⟨disk_unchanged response disk rand,
    trace_no_write response disk rand, ?_⟩
  intro fe
  cases fe
  · rfl
  · simp [mainRun, disk_unchanged]

/-- C6: the exit status is 0 for every run in which the project file exists
(these are exactly the runs that can end in the Created or AlreadyExists
outcome), and 1 — non-zero — when the file is missing at the expected path
(an I/O failure); moreover no BrokenReference outcome is representable:
every outcome is aborted, alreadyExists or instructed. -/
theorem exit_status_spec (response disk : String) (rand : Nat → Nat) :
    (mainRun true response disk rand).1 = 0 ∧
    (mainRun false response disk rand).1 = 1 ∧
    ∀ res : AddResult,
      res = AddResult.aborted ∨ res = AddResult.alreadyExists ∨
        res = AddResult.instructed := by
  refine ⟨rfl, rfl, ?_⟩
  intro res
  cases res
  · exact Or.inl rfl
  · exact Or.inr (Or.inl rfl)
  · exact Or.inr (Or.inr rfl)

/-- C7: in every execution the prompt is the first event of the trace,
every write event in the trace is preceded by a prompt event (vacuously so,
since no write ever occurs), and a response whose lowercase form is not the
affirmative yes aborts the run with the document unmodified. -/
theorem confirmation_gate (response disk : String) (rand : Nat → Nat) :
    ((add_broadcast_extension_target response disk rand).trace).head? =
      some Event.prompt ∧
    (∀ i : Nat, ∀ c : String,
      ((add_broadcast_extension_target response disk rand).trace).get? i =
        some (Event.writeDoc c) →
      ∃ j, j < i ∧
        ((add_broadcast_extension_target response disk rand).trace).get? j =
          some Event.prompt) ∧
    (pyLower response ≠ "yes" →
      (add_broadcast_extension_target response disk rand).result =
        AddResult.aborted ∧
      (add_broadcast_extension_target response disk rand).disk = disk) := by
  refine ⟨trace_starts_prompt response disk rand, ?_, ?_⟩
  · intro i c hget
    exfalso
    have hmem : Event.writeDoc c ∈
        (add_broadcast_extension_target response disk rand).trace :=
      List.get?_mem hget
    have hfil : Event.writeDoc c ∈
        ((add_broadcast_extension_target response disk rand).trace).filter
          Event.isWrite :=
      List.mem_filter.mpr ⟨hmem, rfl⟩
    rw [trace_no_write response disk rand] at hfil
    exact (List.not_mem_nil _) hfil
  · intro hno
    rw [add_abort response disk rand hno]
    exact ⟨rfl, rfl⟩

/-- Witness for confirmation_gate: the response no aborts the run and
leaves the document unchanged. -/
theorem confirmation_gate_witness :
    (add_broadcast_extension_target "no" "doc" (fun _ => 0)).result =
      AddResult.aborted ∧
    (add_broadcast_extension_target "no" "doc" (fun _ => 0)).disk = "doc" :=
  (confirmation_gate "no" "doc" (fun _ => 0)).2.2 (by decide)

/-- C10: the already-exists determination is a raw substring test on the
document text: in every confirmed run whose document contains the character
sequence BroadcastExtension anywhere — also inside a comment or a path,
with no Target node of that name — the operation reports the target as
already existing and returns with the document unchanged. -/
theorem substring_existence_test (response disk : String) (rand : Nat → Nat)
    (hy : pyLower response = "yes")
    (hf : containsSub broadcastName.data disk.data = true) :
    (add_broadcast_extension_target response disk rand).result =
      AddResult.alreadyExists ∧
    (add_broadcast_extension_target response disk rand).disk = disk := by
  rw [add_found response disk rand hy hf]
  exact ⟨rfl, rfl⟩

/-- Witness for substring_existence_test: the name occurs only inside a
comment, no Target node of that name exists, and the run still reports
AlreadyExists. -/
theorem substring_existence_test_witness :
    (add_broadcast_extension_target "yes"
      "/* BroadcastExtension only in a comment */" (fun _ => 0)).result =
      AddResult.alreadyExists ∧
    (add_broadcast_extension_target "yes"
      "/* BroadcastExtension only in a comment */" (fun _ => 0)).disk =
      "/* BroadcastExtension only in a comment */" :=
  substring_existence_test "yes" "/* BroadcastExtension only in a comment */"
    (fun _ => 0) (by decide) (by decide)

/-- C1 counterexample: calling the operation twice on a document free of
the target name yields the success outcome both times; the second call
returns the instructed outcome, not AlreadyExists, because the first call
persisted nothing. -/
theorem second_call_not_alreadyExists :
    (add_broadcast_extension_target "yes"
      (add_broadcast_extension_target "yes" "" (fun _ => 0)).disk
      (fun _ => 0)).result = AddResult.instructed ∧
    AddResult.instructed ≠ AddResult.alreadyExists :=
  ⟨by decide, by decide⟩

/-- C1 amended: the existing-target detection is a substring test on the
raw document text, and nothing is ever persisted: in a confirmed run, a
document containing the character sequence BroadcastExtension yields
AlreadyExists with the document unchanged, while on a document without
that sequence calling the operation twice yields the success outcome both
times — never AlreadyExists on the second call — with the document after
the second call byte-for-byte identical to the document after the first. -/
theorem rerun_behavior (response disk : String) (rand : Nat → Nat)
    (hy : pyLower response = "yes") :
    (containsSub broadcastName.data disk.data = true →
      (add_broadcast_extension_target response disk rand).result =
        AddResult.alreadyExists ∧
      (add_broadcast_extension_target response disk rand).disk = disk) ∧
    (containsSub broadcastName.data disk.data = false →
      (add_broadcast_extension_target response disk rand).result =
        AddResult.instructed ∧
      (add_broadcast_extension_target response
          (add_broadcast_extension_target response disk rand).disk
          rand).result = AddResult.instructed ∧
      (add_broadcast_extension_target response
          (add_broadcast_extension_target response disk rand).disk
          rand).disk =
        (add_broadcast_extension_target response disk rand).disk) := by
  constructor
  · intro hf
    rw [add_found response disk rand hy hf]
    exact ⟨rfl, rfl⟩
  · intro hf
    rw [disk_unchanged response disk rand]
    rw [add_notfound response disk rand hy hf]
    exact ⟨rfl, rfl, rfl⟩

/-- Witness for rerun_behavior: two confirmed runs on the empty document
both return the success outcome and leave the document unchanged. -/
theorem rerun_behavior_witness :
    (add_broadcast_extension_target "yes" "" (fun _ => 0)).result =
      AddResult.instructed ∧
    (add_broadcast_extension_target "yes"
        (add_broadcast_extension_target "yes" "" (fun _ => 0)).disk
        (fun _ => 0)).result = AddResult.instructed ∧
    (add_broadcast_extension_target "yes"
        (add_broadcast_extension_target "yes" "" (fun _ => 0)).disk
        (fun _ => 0)).disk =
      (add_broadcast_extension_target "yes" "" (fun _ => 0)).disk :=
  (rerun_behavior "yes" "" (fun _ => 0) (by decide)).2 (by decide)

/-- C2 counterexample: a run reporting the successful outcome leaves the
document byte-for-byte unchanged — the updated graph is never persisted,
and the document still lacks the target name afterwards. -/
theorem created_without_write :
    (add_broadcast_extension_target "yes" "// existing project"
      (fun _ => 0)).result = AddResult.instructed ∧
    (add_broadcast_extension_target "yes" "// existing project"
      (fun _ => 0)).disk = "// existing project" ∧
    containsSub broadcastName.data
      ((add_broadcast_extension_target "yes" "// existing project"
        (fun _ => 0)).disk).data = false :=
  ⟨by decide, by decide, by decide⟩

/-- C2 amended: for every call reporting the successful outcome, nothing
is persisted: the trace contains no write event and the on-disk document
equals the input document; the script prints manual instructions instead
of committing the graph. -/
theorem success_no_persist (response disk : String) (rand : Nat → Nat)
    (_hres : (add_broadcast_extension_target response disk rand).result =
      AddResult.instructed) :
    (add_broadcast_extension_target response disk rand).disk = disk ∧
    ((add_broadcast_extension_target response disk rand).trace).filter
      Event.isWrite = [] :=
  ⟨disk_unchanged response disk rand, trace_no_write response disk rand⟩

/-- Witness for success_no_persist on a one-character document. -/
theorem success_no_persist_witness :
    (add_broadcast_extension_target "yes" "p" (fun _ => 0)).disk = "p" ∧
    ((add_broadcast_extension_target "yes" "p" (fun _ => 0)).trace).filter
      Event.isWrite = [] :=
  success_no_persist "yes" "p" (fun _ => 0) (by decide)

/-- C3 counterexample: the generator consults no key set; for a graph
whose key set already contains the token AAAAAAAAAAAA4AAA8AAAAAAA, the
well-formed version-4 random value 0xaaaaaaaaaaaa4aaa8aaaaaaaaaaaaaaa
makes generate_uuid return exactly that token, a key already present. -/
theorem uuid_collision_possible :
    generate_uuid 0xaaaaaaaaaaaa4aaa8aaaaaaaaaaaaaaa ∈
      (["AAAAAAAAAAAA4AAA8AAAAAAA"] : List String) := by
  decide

/-- C3 amended: generate_uuid is a function of the random value alone and
performs no membership check against the existing key set, so for every
random value there is a nonempty key set already containing the returned
token — uniqueness is probabilistic only, never verified. -/
theorem uuid_ignores_keys (r : Nat) :
    ∃ keys : List String, keys ≠ [] ∧ generate_uuid r ∈ keys :=
  ⟨[generate_uuid r], by simp, List.mem_singleton.mpr rfl⟩

/-- C4 counterexample: on the empty graph the confirmed call returns the
success outcome, but the resulting document is the unchanged empty one: it
contains no occurrence of the target name, hence no Target named
BroadcastExtension, no ProductReference, no configuration list or build
phases, and no FileReference nodes. -/
theorem scenario_adds_nothing :
    (add_broadcast_extension_target "yes" "" (fun _ => 0)).result =
      AddResult.instructed ∧
    (add_broadcast_extension_target "yes" "" (fun _ => 0)).disk = "" ∧
    containsSub broadcastName.data
      ((add_broadcast_extension_target "yes" "" (fun _ => 0)).disk).data =
      false :=
  ⟨by decide, by decide, by decide⟩

/-- C4 amended: for a document not containing the target name, a confirmed
call returns the success outcome, yet the graph is unchanged — the
resulting document is byte-for-byte the input and still lacks the sequence
BroadcastExtension, so no Target of that name nor any dependent node was
created; the script prints manual instructions instead. -/
theorem scenario_postcondition_amended (response disk : String)
    (rand : Nat → Nat) (hy : pyLower response = "yes")
    (hf : containsSub broadcastName.data disk.data = false) :
    (add_broadcast_extension_target response disk rand).result =
      AddResult.instructed ∧
    (add_broadcast_extension_target response disk rand).disk = disk ∧
    containsSub broadcastName.data
      ((add_broadcast_extension_target response disk rand).disk).data =
      false := by
  rw [add_notfound response disk rand hy hf]
  exact ⟨rfl, rfl, hf⟩

/-- Witness for scenario_postcondition_amended on a small document. -/
theorem scenario_postcondition_amended_witness :
    (add_broadcast_extension_target "yes" "x" (fun _ => 0)).result =
      AddResult.instructed ∧
    (add_broadcast_extension_target "yes" "x" (fun _ => 0)).disk = "x" ∧
    containsSub broadcastName.data
      ((add_broadcast_extension_target "yes" "x" (fun _ => 0)).disk).data =
      false :=
  scenario_postcondition_amended "yes" "x" (fun _ => 0) (by decide) (by decide)

/-- C5 counterexample: in a confirmed run on a document already containing
the target name, the trace still contains identifier-generation events —
generation happens before the idempotency check, so identifiers are
generated although the result is AlreadyExists. -/
theorem gen_despite_existing :
    (add_broadcast_extension_target "yes" "BroadcastExtension"
      (fun _ => 0)).result = AddResult.alreadyExists ∧
    Event.genId (generate_uuid 0) ∈
      (add_broadcast_extension_target "yes" "BroadcastExtension"
        (fun _ => 0)).trace :=
  ⟨by decide, by decide⟩

/-- C5 amended: identifier allocation precedes the idempotency check: in
every confirmed run whose document already contains the target name, the
trace is the prompt, the read, then the 14 generated identifiers, and only
then the existence check that finds the target — so 14 identifiers are
generated even though the target already exists. -/
theorem gen_precedes_check (response disk : String) (rand : Nat → Nat)
    (hy : pyLower response = "yes")
    (hf : containsSub broadcastName.data disk.data = true) :
    (add_broadcast_extension_target response disk rand).result =
      AddResult.alreadyExists ∧
    (add_broadcast_extension_target response disk rand).trace =
      [Event.prompt, Event.readDoc] ++ (runIds rand).map Event.genId ++
        [Event.existsCheck true] ∧
    (runIds rand).length = uuidCount := by
  rw [add_found response disk rand hy hf]
  refine ⟨rfl, rfl, ?_⟩
  simp [runIds]

/-- Witness for gen_precedes_check on a document that is exactly the
target name. -/
theorem gen_precedes_check_witness :
    (add_broadcast_extension_target "yes" "BroadcastExtension"
      (fun _ => 0)).result = AddResult.alreadyExists ∧
    (runIds (fun _ => 0)).length = uuidCount :=
  ⟨(gen_precedes_check "yes" "BroadcastExtension" (fun _ => 0) (by decide)
      (by decide)).1,
    (gen_precedes_check "yes" "BroadcastExtension" (fun _ => 0) (by decide)
      (by decide)).2.2⟩
